import Mathlib

/-!
Shallow embedding of `Source/Core/Core/IOS/USB/USB_HID/HIDv5.cpp` from the
Dolphin emulator (the USBV5 HID emulated IOS device), together with models of
the external collaborators that file uses: the guest memory primitives
(`Memory::Read_U8/Read_U32/Write_U32/Memset/CopyToEmu`), the USBV5 device
registry helpers of `USBV5Base` (`GetUSBV5Device`, `HandleDeviceIOCtl`), the
USB descriptor records of `Core/IOS/USB/Common.h` and their byte-order `Swap`,
and the host USB device abstraction.  Guest memory is big-endian and
byte-addressed; it is modelled as a function from addresses to bytes.
-/

/-- Guest memory: byte-addressed; a cell holds one byte. -/
abbrev Mem := Nat → Nat

/-- Memory::Read_U8 at a guest address. -/
def readU8 (m : Mem) (a : Nat) : Nat := m a % 256

/-- Write of a single byte to guest memory. -/
def writeU8 (m : Mem) (a b : Nat) : Mem := fun x => if x = a then b % 256 else m x

/-- Memory::Read_U32: big-endian 32-bit read from guest memory. -/
def readU32 (m : Mem) (a : Nat) : Nat :=
  readU8 m a * 16777216 + readU8 m (a + 1) * 65536 + readU8 m (a + 2) * 256 + readU8 m (a + 3)

/-- Memory::Write_U32: big-endian 32-bit write to guest memory. -/
def writeU32 (m : Mem) (a v : Nat) : Mem :=
  writeU8 (writeU8 (writeU8 (writeU8 m a (v / 16777216)) (a + 1) (v / 65536)) (a + 2) (v / 256))
    (a + 3) v

/-- Memory::Memset: fill `n` guest bytes starting at `a` with byte `v`. -/
def memset (m : Mem) (a v n : Nat) : Mem :=
  fun x => if a ≤ x ∧ x < a + n then v % 256 else m x

/-- Memory::CopyToEmu: copy a host byte list into guest memory at `a`. -/
def copyToEmu (m : Mem) (a : Nat) : List Nat → Mem
  | [] => m
  | b :: bs => copyToEmu (writeU8 m a b) (a + 1) bs

/-- Modelled from the spec: the USB device descriptor record of
`Core/IOS/USB/Common.h` (not under src); a fixed-layout snapshot obtained from
the host device abstraction. -/
structure DeviceDescriptor where
  bLength : Nat
  bDescriptorType : Nat
  bcdUSB : Nat
  bDeviceClass : Nat
  bDeviceSubClass : Nat
  bDeviceProtocol : Nat
  bMaxPacketSize0 : Nat
  idVendor : Nat
  idProduct : Nat
  bcdDevice : Nat
  iManufacturer : Nat
  iProduct : Nat
  iSerialNumber : Nat
  bNumConfigurations : Nat
deriving DecidableEq, Inhabited

/-- Modelled from the spec: the USB configuration descriptor record of
`Core/IOS/USB/Common.h` (not under src). -/
structure ConfigDescriptor where
  bLength : Nat
  bDescriptorType : Nat
  wTotalLength : Nat
  bNumInterfaces : Nat
  bConfigurationValue : Nat
  iConfiguration : Nat
  bmAttributes : Nat
  MaxPower : Nat
deriving DecidableEq, Inhabited

/-- Modelled from the spec: the USB interface descriptor record of
`Core/IOS/USB/Common.h` (not under src). -/
structure InterfaceDescriptor where
  bLength : Nat
  bDescriptorType : Nat
  bInterfaceNumber : Nat
  bAlternateSetting : Nat
  bNumEndpoints : Nat
  bInterfaceClass : Nat
  bInterfaceSubClass : Nat
  bInterfaceProtocol : Nat
  iInterface : Nat
deriving DecidableEq, Inhabited

/-- Modelled from the spec: the USB endpoint descriptor record of
`Core/IOS/USB/Common.h` (not under src). -/
structure EndpointDescriptor where
  bLength : Nat
  bDescriptorType : Nat
  bEndpointAddress : Nat
  bmAttributes : Nat
  wMaxPacketSize : Nat
  bInterval : Nat
deriving DecidableEq, Inhabited

/-- Big-endian byte pair of a 16-bit descriptor field after `Swap`. -/
def u16be (v : Nat) : List Nat := [v / 256 % 256, v % 256]

/-- Modelled from the spec: guest-visible bytes of a device descriptor after
the in-place byte-order `Swap` (multi-byte fields become big-endian); the
record layout is that of `Core/IOS/USB/Common.h`, which is not under src. -/
def DeviceDescriptor.wire (d : DeviceDescriptor) : List Nat :=
  [d.bLength % 256, d.bDescriptorType % 256] ++ u16be d.bcdUSB ++
    [d.bDeviceClass % 256, d.bDeviceSubClass % 256, d.bDeviceProtocol % 256,
      d.bMaxPacketSize0 % 256] ++
    u16be d.idVendor ++ u16be d.idProduct ++ u16be d.bcdDevice ++
    [d.iManufacturer % 256, d.iProduct % 256, d.iSerialNumber % 256, d.bNumConfigurations % 256]

/-- Modelled from the spec: guest-visible bytes of a configuration descriptor
after `Swap`. -/
def ConfigDescriptor.wire (c : ConfigDescriptor) : List Nat :=
  [c.bLength % 256, c.bDescriptorType % 256] ++ u16be c.wTotalLength ++
    [c.bNumInterfaces % 256, c.bConfigurationValue % 256, c.iConfiguration % 256,
      c.bmAttributes % 256, c.MaxPower % 256]

/-- Modelled from the spec: guest-visible bytes of an interface descriptor
(all fields single bytes, `Swap` is the identity on them). -/
def InterfaceDescriptor.wire (i : InterfaceDescriptor) : List Nat :=
  [i.bLength % 256, i.bDescriptorType % 256, i.bInterfaceNumber % 256,
    i.bAlternateSetting % 256, i.bNumEndpoints % 256, i.bInterfaceClass % 256,
    i.bInterfaceSubClass % 256, i.bInterfaceProtocol % 256, i.iInterface % 256]

/-- Modelled from the spec: guest-visible bytes of an endpoint descriptor
after `Swap`. -/
def EndpointDescriptor.wire (e : EndpointDescriptor) : List Nat :=
  [e.bLength % 256, e.bDescriptorType % 256, e.bEndpointAddress % 256, e.bmAttributes % 256] ++
    u16be e.wMaxPacketSize ++ [e.bInterval % 256]

/-- A registered USBV5 device slot (`USBV5Base::USBV5Device`, fields read by
HIDv5.cpp: `host_id` and `interface_number`; `device_id` is the guest-visible
handle the registry resolves). -/
structure USBV5Device where
  device_id : Nat
  host_id : Nat
  interface_number : Nat
deriving DecidableEq, Inhabited

/-- Per-slot side record `USB_HIDv5::AdditionalDeviceData`; both endpoints
default to zero (unresolved). -/
structure AdditionalDeviceData where
  interrupt_in_endpoint : Nat
  interrupt_out_endpoint : Nat
deriving DecidableEq, Inhabited

/-- Host USB device abstraction, as consumed by HIDv5.cpp: descriptor
snapshots for configuration 0 and the endpoint lists per
(interface number, alternate setting). -/
structure HostDevice where
  deviceDescriptor : DeviceDescriptor
  configurations : List ConfigDescriptor
  interfaces : List InterfaceDescriptor
  endpoints : Nat → Nat → List EndpointDescriptor

/-- State visible to the HIDv5 handlers: guest memory, the registry slot
array, the parallel side table, the host devices keyed by `host_id`, and the
log of `CancelTransfer` calls issued to host devices. -/
structure HIDState where
  mem : Mem
  usbv5_devices : List (Option USBV5Device)
  additional_device_data : List AdditionalDeviceData
  hostDevices : Nat → HostDevice
  cancelled : List (Nat × Nat)

/-- A discrete IOCtl request (`IOS::HLE::IOCtlRequest`). -/
structure IOCtlRequest where
  request : Nat
  buffer_in : Nat
  buffer_in_size : Nat
  buffer_out : Nat
  buffer_out_size : Nat
deriving DecidableEq, Inhabited

/-- One scatter/gather vector of a vectored request. -/
structure IOVector where
  address : Nat
  size : Nat
deriving DecidableEq, Inhabited

/-- A vectored IOCtlV request (`IOS::HLE::IOCtlVRequest`). -/
structure IOCtlVRequest where
  request : Nat
  in_vectors : List IOVector
  io_vectors : List IOVector
deriving DecidableEq, Inhabited

/-- Modelled from the spec: command identifier constants of
`Core/IOS/USB/Common.h` (not under src); only distinctness matters here. -/
def IOCTL_USBV5_GETVERSION : Nat := 0

/-- Modelled from the spec: see `IOCTL_USBV5_GETVERSION`. -/
def IOCTL_USBV5_GETDEVICECHANGE : Nat := 1

/-- Modelled from the spec: see `IOCTL_USBV5_GETVERSION`. -/
def IOCTL_USBV5_SHUTDOWN : Nat := 2

/-- Modelled from the spec: see `IOCTL_USBV5_GETVERSION`. -/
def IOCTL_USBV5_GETDEVPARAMS : Nat := 3

/-- Modelled from the spec: see `IOCTL_USBV5_GETVERSION`. -/
def IOCTL_USBV5_ATTACHFINISH : Nat := 6

/-- Modelled from the spec: see `IOCTL_USBV5_GETVERSION`. -/
def IOCTL_USBV5_SUSPEND_RESUME : Nat := 16

/-- Modelled from the spec: see `IOCTL_USBV5_GETVERSION`. -/
def IOCTL_USBV5_CANCELENDPOINT : Nat := 17

/-- Modelled from the spec: see `IOCTL_USBV5_GETVERSION`. -/
def IOCTLV_USBV5_CTRLMSG : Nat := 18

/-- Modelled from the spec: see `IOCTL_USBV5_GETVERSION`. -/
def IOCTLV_USBV5_INTRMSG : Nat := 19

/-- IPC success status. -/
def IPC_SUCCESS : Int := 0

/-- IPC invalid-argument status (EINVAL). -/
def IPC_EINVAL : Int := -4

/-- HIDv5.cpp line 23: `constexpr u32 USBV5_VERSION = 0x50001`. -/
def USBV5_VERSION : Nat := 0x50001

/-- Scan of the registry slot array for an in-use slot with the given device
id, returning the slot index and record. -/
def findDevice (id : Nat) : List (Option USBV5Device) → Nat → Option (Nat × USBV5Device)
  | [], _ => none
  | none :: rest, i => findDevice id rest (i + 1)
  | some d :: rest, i =>
    if d.device_id = id then some (i, d) else findDevice id rest (i + 1)

/-- Modelled from the spec: `USBV5Base::GetUSBV5Device` (not under src) reads
the guest handle, a 32-bit device id, at the given address and resolves it to
a registered slot. -/
def getUSBV5Device (s : HIDState) (addr : Nat) : Option (Nat × USBV5Device) :=
  findDevice (readU32 s.mem addr) s.usbv5_devices 0

/-- Modelled from the spec: `USBV5Base::HandleDeviceIOCtl` (not under src)
resolves the device from the handle at the start of the input buffer and
runs the handler on it; an unresolved handle yields invalid-argument. -/
def handleDeviceIOCtl (s : HIDState) (request : IOCtlRequest)
    (handler : USBV5Device → Nat → HIDState → Int × HIDState) : Int × HIDState :=
  match getUSBV5Device s request.buffer_in with
  | none => (IPC_EINVAL, s)
  | some (i, d) => handler d i s

/-- A transfer object constructed by `USB_HIDv5::SubmitTransfer`: either a
`V5CtrlMessage` (endpoint 0, implicit) or a `V5IntrMessage` with its resolved
endpoint address. -/
inductive TransferMessage where
  | ctrl : TransferMessage
  | intr (endpoint : Nat) : TransferMessage
deriving DecidableEq

/-- Outcome of `USB_HIDv5::IOCtlV`: an immediate reply code, or a transfer
handed to the host abstraction for asynchronous completion
(`USBV5Base::HandleTransfer`). -/
inductive IOCtlVResult where
  | reply (code : Int)
  | transfer (msg : TransferMessage)
deriving DecidableEq

/-- HIDv5.cpp lines 81-106, `USB_HIDv5::SubmitTransfer`: build the transfer
object for a control or interrupt message.  For an interrupt message the
endpoint is chosen by the 32-bit value at offset 8 of the first input vector:
non-zero selects the interrupt OUT endpoint, zero the IN endpoint, read from
the side-table entry of the device's slot (`didx`). -/
def USB_HIDv5.SubmitTransfer (s : HIDState) (didx : Nat) (ioctlv : IOCtlVRequest) :
    Option TransferMessage :=
  if ioctlv.request = IOCTLV_USBV5_CTRLMSG then
    some TransferMessage.ctrl
  else if ioctlv.request = IOCTLV_USBV5_INTRMSG then
    let data := s.additional_device_data.getD didx default
    if readU32 s.mem ((ioctlv.in_vectors.headD default).address + 8) ≠ 0 then
      some (TransferMessage.intr data.interrupt_out_endpoint)
    else
      some (TransferMessage.intr data.interrupt_in_endpoint)
  else
    none

/-- HIDv5.cpp lines 54-79, `USB_HIDv5::IOCtlV`: for control/interrupt
messages, check that the vector count is exactly 2, resolve the device from
the handle in the first input vector, and submit the constructed transfer;
any other vectored request id is answered with `IPC_EINVAL`.  The host-side
`Attach` call and the asynchronous completion are external effects outside
the modelled state. -/
def USB_HIDv5.IOCtlV (s : HIDState) (request : IOCtlVRequest) : IOCtlVResult × HIDState :=
  if request.request = IOCTLV_USBV5_CTRLMSG ∨ request.request = IOCTLV_USBV5_INTRMSG then
    if request.in_vectors.length + request.io_vectors.length ≠ 2 then
      (IOCtlVResult.reply IPC_EINVAL, s)
    else
      match getUSBV5Device s (request.in_vectors.headD default).address with
      | none => (IOCtlVResult.reply IPC_EINVAL, s)
      | some (i, _) =>
        match USB_HIDv5.SubmitTransfer s i request with
        | some msg => (IOCtlVResult.transfer msg, s)
        | none => (IOCtlVResult.reply IPC_EINVAL, s)
  else
    (IOCtlVResult.reply IPC_EINVAL, s)

/-- HIDv5.cpp lines 108-118, `USB_HIDv5::CancelEndpoint`: read the 32-bit
value at offset 8 of the input buffer, truncate it to one byte, issue
`CancelTransfer` on the host device for this slot's `host_id` (recorded in
the `cancelled` log), and reply success unconditionally. -/
def USB_HIDv5.CancelEndpoint (s : HIDState) (device : USBV5Device) (request : IOCtlRequest) :
    Int × HIDState :=
  let endpoint := readU32 s.mem (request.buffer_in + 8) % 256
  (IPC_SUCCESS, { s with cancelled := s.cancelled ++ [(device.host_id, endpoint)] })

/-- One iteration of the endpoint loop of HIDv5.cpp lines 152-170: interrupt
endpoints (bmAttributes = 0b11) update the side-table entry for slot `didx`
and are written at offset 80 (IN, direction bit 0x80 set) or 88 (OUT) of the
output buffer; other endpoints are ignored. -/
def processEndpoint (out didx : Nat) (acc : Mem × List AdditionalDeviceData)
    (e : EndpointDescriptor) : Mem × List AdditionalDeviceData :=
  if e.bmAttributes = 3 then
    let is_in := e.bEndpointAddress &&& 128 ≠ 0
    let data := acc.2.getD didx default
    let data2 := if is_in then { data with interrupt_in_endpoint := e.bEndpointAddress }
      else { data with interrupt_out_endpoint := e.bEndpointAddress }
    let offset := if is_in then 80 else 88
    (copyToEmu acc.1 (out + offset) e.wire, acc.2.set didx data2)
  else
    acc

/-- HIDv5.cpp lines 120-173, `USB_HIDv5::GetDeviceInfo`: validate the output
buffer (present and exactly 0x60 bytes), read the alternate setting at offset
8 of the input buffer, zero the output buffer, then write the handle at 0,
the constant 1 at 4, the swapped device descriptor at 36, the swapped first
configuration descriptor at 56; find the interface matching the device's
interface number and the alternate setting (none: `IPC_EINVAL`), write it
swapped at 68, and process its endpoints. -/
def USB_HIDv5.GetDeviceInfo (s : HIDState) (didx : Nat) (device : USBV5Device)
    (request : IOCtlRequest) : Int × HIDState :=
  if request.buffer_out = 0 ∨ request.buffer_out_size ≠ 0x60 then
    (IPC_EINVAL, s)
  else
    let host := s.hostDevices device.host_id
    let alt_setting := readU8 s.mem (request.buffer_in + 8)
    let m0 := memset s.mem request.buffer_out 0 request.buffer_out_size
    let m1 := writeU32 m0 request.buffer_out (readU32 m0 request.buffer_in)
    let m2 := writeU32 m1 (request.buffer_out + 4) 1
    let m3 := copyToEmu m2 (request.buffer_out + 36) host.deviceDescriptor.wire
    let m4 := copyToEmu m3 (request.buffer_out + 56) (host.configurations.headD default).wire
    match host.interfaces.find? (fun itf =>
        itf.bInterfaceNumber == device.interface_number &&
          itf.bAlternateSetting == alt_setting) with
    | none => (IPC_EINVAL, { s with mem := m4 })
    | some itf =>
      let m5 := copyToEmu m4 (request.buffer_out + 68) itf.wire
      let eps := host.endpoints itf.bInterfaceNumber itf.bAlternateSetting
      let res := eps.foldl (processEndpoint request.buffer_out didx)
        (m5, s.additional_device_data)
      (IPC_SUCCESS, { s with mem := res.1, additional_device_data := res.2 })

/-- HIDv5.cpp lines 27-52, `USB_HIDv5::IOCtl`: dispatch one discrete command.
`GetDeviceChange`, `Shutdown` and `SuspendResume` live in `USBV5Base` outside
this file and are taken as parameters; unrecognized identifiers are logged
and answered with success. -/
def USB_HIDv5.IOCtl (getDeviceChange shutdown : HIDState → IOCtlRequest → Int × HIDState)
    (suspendResume : HIDState → USBV5Device → IOCtlRequest → Int × HIDState)
    (s : HIDState) (request : IOCtlRequest) : Int × HIDState :=
  if request.request = IOCTL_USBV5_GETVERSION then
    (IPC_SUCCESS, { s with mem := writeU32 s.mem request.buffer_out USBV5_VERSION })
  else if request.request = IOCTL_USBV5_GETDEVICECHANGE then
    getDeviceChange s request
  else if request.request = IOCTL_USBV5_SHUTDOWN then
    shutdown s request
  else if request.request = IOCTL_USBV5_GETDEVPARAMS then
    handleDeviceIOCtl s request (fun device didx s1 =>
      USB_HIDv5.GetDeviceInfo s1 didx device request)
  else if request.request = IOCTL_USBV5_ATTACHFINISH then
    (IPC_SUCCESS, s)
  else if request.request = IOCTL_USBV5_SUSPEND_RESUME then
    handleDeviceIOCtl s request (fun device _ s1 => suspendResume s1 device request)
  else if request.request = IOCTL_USBV5_CANCELENDPOINT then
    handleDeviceIOCtl s request (fun device _ s1 =>
      USB_HIDv5.CancelEndpoint s1 device request)
  else
    (IPC_SUCCESS, s)

/-- An endpoint the HIDv5 descriptor loop treats as interrupt-IN:
transfer type interrupt (bmAttributes = 0b11) with the direction bit 0x80 set. -/
def isIntrIn (e : EndpointDescriptor) : Bool :=
  e.bmAttributes == 3 && (e.bEndpointAddress &&& 128) != 0

/-- An endpoint the HIDv5 descriptor loop treats as interrupt-OUT:
transfer type interrupt with the direction bit 0x80 clear. -/
def isIntrOut (e : EndpointDescriptor) : Bool :=
  e.bmAttributes == 3 && (e.bEndpointAddress &&& 128) == 0

/-- Guest memory after the unconditional prefix of `GetDeviceInfo`'s
assembly: output buffer zeroed, then the handle (re-read from the input
buffer after the zeroing), the constant 1, the device descriptor bytes `dw`
and the first configuration descriptor bytes `cw` written. -/
def assembledMem (mem : Mem) (out bin : Nat) (dw cw : List Nat) : Mem :=
  copyToEmu
    (copyToEmu
      (writeU32 (writeU32 (memset mem out 0 96) out (readU32 (memset mem out 0 96) bin))
        (out + 4) 1)
      (out + 36) dw)
    (out + 56) cw

/-- The endpoint loop of `GetDeviceInfo` as a function of its starting memory
and side table. -/
def deviceInfoLoop (out didx : Nat) (eps : List EndpointDescriptor) (m : Mem)
    (d : List AdditionalDeviceData) : Mem × List AdditionalDeviceData :=
  eps.foldl (processEndpoint out didx) (m, d)

/-- A sample registered device used for concrete witnesses. -/
def sampleDevice : USBV5Device :=
  { device_id := 1, host_id := 0, interface_number := 0 }

/-- A sample HID interface descriptor (interface 0, alternate setting 0). -/
def sampleInterface : InterfaceDescriptor :=
  { bLength := 9, bDescriptorType := 4, bInterfaceNumber := 0, bAlternateSetting := 0,
    bNumEndpoints := 2, bInterfaceClass := 3, bInterfaceSubClass := 0,
    bInterfaceProtocol := 0, iInterface := 0 }

/-- A sample interrupt-IN endpoint descriptor, address 0x81. -/
def sampleEpIn : EndpointDescriptor :=
  { bLength := 7, bDescriptorType := 5, bEndpointAddress := 0x81, bmAttributes := 3,
    wMaxPacketSize := 64, bInterval := 10 }

/-- A sample interrupt-OUT endpoint descriptor, address 0x02. -/
def sampleEpOut : EndpointDescriptor :=
  { bLength := 7, bDescriptorType := 5, bEndpointAddress := 2, bmAttributes := 3,
    wMaxPacketSize := 64, bInterval := 10 }

/-- A sample host device with one configuration, one interface and the two
interrupt endpoints above. -/
def sampleHost : HostDevice :=
  { deviceDescriptor :=
      { bLength := 18, bDescriptorType := 1, bcdUSB := 0x200, bDeviceClass := 0,
        bDeviceSubClass := 0, bDeviceProtocol := 0, bMaxPacketSize0 := 64,
        idVendor := 0x57e, idProduct := 0x306, bcdDevice := 0x100, iManufacturer := 1,
        iProduct := 2, iSerialNumber := 0, bNumConfigurations := 1 },
    configurations :=
      [{ bLength := 9, bDescriptorType := 2, wTotalLength := 34, bNumInterfaces := 1,
         bConfigurationValue := 1, iConfiguration := 0, bmAttributes := 0xa0,
         MaxPower := 50 }],
    interfaces := [sampleInterface],
    endpoints := fun _ _ => [sampleEpIn, sampleEpOut] }

/-- Sample guest memory: the 32-bit handle 1 stored big-endian at 0x1000,
all other bytes zero. -/
def sampleMem : Mem := fun a => if a = 0x1003 then 1 else 0

/-- Sample handler state: one registered slot bound to `sampleDevice`. -/
def sampleState : HIDState :=
  { mem := sampleMem, usbv5_devices := [some sampleDevice],
    additional_device_data := [default], hostDevices := fun _ => sampleHost,
    cancelled := [] }

/-- A sample GET_DEVICE_PARAMETERS request: handle at 0x1000, output buffer
of 0x60 bytes at 0x2000. -/
def sampleRequest : IOCtlRequest :=
  { request := 3, buffer_in := 0x1000, buffer_in_size := 32, buffer_out := 0x2000,
    buffer_out_size := 0x60 }

/-- Sample guest memory for the mismatch case: handle 1 at 0x1000 and
alternate setting 1 at offset 8 of the input buffer. -/
def sampleMemAlt : Mem := fun a => if a = 0x1003 then 1 else if a = 0x1008 then 1 else 0

/-- Sample state requesting an alternate setting no interface has. -/
def sampleStateAlt : HIDState := { sampleState with mem := sampleMemAlt }

/-- A vectored interrupt request with no vectors at all. -/
def sampleBadVectored : IOCtlVRequest :=
  { request := IOCTLV_USBV5_INTRMSG, in_vectors := [], io_vectors := [] }

/-- A GET_DEVICE_PARAMETERS request whose output buffer address is zero. -/
def sampleBadParamsRequest : IOCtlRequest :=
  { request := 3, buffer_in := 0x1000, buffer_in_size := 32, buffer_out := 0,
    buffer_out_size := 0x60 }

/-- A discrete request with an unrecognized command identifier. -/
def sampleUnknownRequest : IOCtlRequest :=
  { request := 42, buffer_in := 0x1000, buffer_in_size := 32, buffer_out := 0x2000,
    buffer_out_size := 0x60 }

/-- A GET_VERSION request. -/
def sampleVersionRequest : IOCtlRequest :=
  { request := 0, buffer_in := 0, buffer_in_size := 0, buffer_out := 0x2000,
    buffer_out_size := 4 }

/-- A vectored request with an identifier that is neither the control- nor
the interrupt-message command. -/
def sampleUnknownVRequest : IOCtlVRequest :=
  { request := 20, in_vectors := [{ address := 0x3000, size := 16 }],
    io_vectors := [{ address := 0x4000, size := 64 }] }

/-- Guest memory at interrupt-submission time: handle 1 at 0x3000 and a zero
direction selector at 0x3008. -/
def sampleIntrMem : Mem := fun a => if a = 0x3003 then 1 else 0

/-- A vectored interrupt-message request with one input and one output
vector. -/
def sampleIntrRequest : IOCtlVRequest :=
  { request := IOCTLV_USBV5_INTRMSG, in_vectors := [{ address := 0x3000, size := 16 }],
    io_vectors := [{ address := 0x4000, size := 64 }] }

/-- A host device whose interface exposes only the interrupt-IN endpoint. -/
def sampleHostInOnly : HostDevice := { sampleHost with endpoints := fun _ _ => [sampleEpIn] }

/-- State with a previously-resolved endpoint pair and an interface that now
exposes only an interrupt-IN endpoint. -/
def sampleStateInOnly : HIDState :=
  { mem := sampleMem, usbv5_devices := [some sampleDevice],
    additional_device_data := [{ interrupt_in_endpoint := 5, interrupt_out_endpoint := 7 }],
    hostDevices := fun _ => sampleHostInOnly, cancelled := [] }

theorem writeU8_ne (m : Mem) (a b x : Nat) (h : x ≠ a) : writeU8 m a b x = m x := by
  simp [writeU8, h]

theorem readU8_lt (m : Mem) (a : Nat) : readU8 m a < 256 := by
  simp [readU8]
  omega

theorem readU32_lt (m : Mem) (a : Nat) : readU32 m a < 4294967296 := by
  have h0 := readU8_lt m a
  have h1 := readU8_lt m (a + 1)
  have h2 := readU8_lt m (a + 2)
  have h3 := readU8_lt m (a + 3)
  simp only [readU32]
  omega

theorem writeU32_get0 (m : Mem) (a v : Nat) : writeU32 m a v a = v / 16777216 % 256 := by
  simp only [writeU32, writeU8]
  rw [if_neg (by omega), if_neg (by omega), if_neg (by omega)]
  simp

theorem writeU32_get1 (m : Mem) (a v : Nat) : writeU32 m a v (a + 1) = v / 65536 % 256 := by
  simp only [writeU32, writeU8]
  rw [if_neg (by omega), if_neg (by omega)]
  simp

theorem writeU32_get2 (m : Mem) (a v : Nat) : writeU32 m a v (a + 2) = v / 256 % 256 := by
  simp only [writeU32, writeU8]
  rw [if_neg (by omega)]
  simp

theorem writeU32_get3 (m : Mem) (a v : Nat) : writeU32 m a v (a + 3) = v % 256 := by
  simp only [writeU32, writeU8]
  simp

theorem writeU32_outside (m : Mem) (a v x : Nat) (h : x < a ∨ a + 4 ≤ x) :
    writeU32 m a v x = m x := by
  simp only [writeU32, writeU8]
  rw [if_neg (by omega), if_neg (by omega), if_neg (by omega), if_neg (by omega)]

theorem readU32_writeU32 (m : Mem) (a v : Nat) :
    readU32 (writeU32 m a v) a = v % 4294967296 := by
  simp only [readU32, readU8, writeU32_get0, writeU32_get1, writeU32_get2, writeU32_get3]
  omega

theorem memset_inside (m : Mem) (a v n x : Nat) (h1 : a ≤ x) (h2 : x < a + n) :
    memset m a v n x = v % 256 := by
  simp [memset, h1, h2]

theorem memset_outside (m : Mem) (a v n x : Nat) (h : x < a ∨ a + n ≤ x) :
    memset m a v n x = m x := by
  have : ¬(a ≤ x ∧ x < a + n) := by omega
  simp [memset, this]

theorem copyToEmu_outside (bs : List Nat) : ∀ (m : Mem) (a x : Nat),
    x < a ∨ a + bs.length ≤ x → copyToEmu m a bs x = m x := by
  induction bs with
  | nil => intro m a x _; rfl
  | cons b bs ih =>
    intro m a x h
    simp only [copyToEmu]
    rw [ih (writeU8 m a b) (a + 1) x (by simp at h ⊢; omega)]
    exact writeU8_ne m a b x (by simp at h; omega)

theorem copyToEmu_getD (bs : List Nat) : ∀ (m : Mem) (a i : Nat), i < bs.length →
    copyToEmu m a bs (a + i) = bs.getD i 0 % 256 := by
  induction bs with
  | nil => intro m a i h; simp at h
  | cons b bs ih =>
    intro m a i h
    cases i with
    | zero =>
      simp only [copyToEmu, Nat.add_zero, List.getD_cons_zero]
      rw [copyToEmu_outside bs (writeU8 m a b) (a + 1) a (by omega)]
      simp [writeU8]
    | succ j =>
      have hx : a + (j + 1) = (a + 1) + j := by omega
      simp only [copyToEmu, hx, List.getD_cons_succ]
      exact ih (writeU8 m a b) (a + 1) j (by simp at h; omega)

theorem readU32_congr (m m2 : Mem) (a : Nat)
    (h : ∀ j, j < 4 → m (a + j) = m2 (a + j)) : readU32 m a = readU32 m2 a := by
  have h0 := h 0 (by omega)
  have h1 := h 1 (by omega)
  have h2 := h 2 (by omega)
  have h3 := h 3 (by omega)
  simp only [Nat.add_zero] at h0
  simp [readU32, readU8, h0, h1, h2, h3]

theorem wireDevice_length (d : DeviceDescriptor) : d.wire.length = 18 := by
  simp [DeviceDescriptor.wire, u16be]

theorem wireConfig_length (c : ConfigDescriptor) : c.wire.length = 9 := by
  simp [ConfigDescriptor.wire, u16be]

theorem wireInterface_length (i : InterfaceDescriptor) : i.wire.length = 9 := by
  simp [InterfaceDescriptor.wire]

theorem wireEndpoint_length (e : EndpointDescriptor) : e.wire.length = 7 := by
  simp [EndpointDescriptor.wire, u16be]

theorem wireDevice_mem_lt (d : DeviceDescriptor) : ∀ b ∈ d.wire, b < 256 := by
  simp only [DeviceDescriptor.wire, u16be, List.append_assoc, List.cons_append,
    List.nil_append, List.mem_cons, List.not_mem_nil]
  intro b hb
  rcases hb with h | h | h | h | h | h | h | h | h | h | h | h | h | h | h | h | h | h | h <;>
    first
      | (subst h; omega)
      | simp_all

theorem wireConfig_mem_lt (c : ConfigDescriptor) : ∀ b ∈ c.wire, b < 256 := by
  simp only [ConfigDescriptor.wire, u16be, List.append_assoc, List.cons_append,
    List.nil_append, List.mem_cons, List.not_mem_nil]
  intro b hb
  rcases hb with h | h | h | h | h | h | h | h | h | h <;>
    first
      | (subst h; omega)
      | simp_all

theorem wireInterface_mem_lt (i : InterfaceDescriptor) : ∀ b ∈ i.wire, b < 256 := by
  simp only [InterfaceDescriptor.wire, List.mem_cons, List.not_mem_nil]
  intro b hb
  rcases hb with h | h | h | h | h | h | h | h | h | h <;>
    first
      | (subst h; omega)
      | simp_all

theorem wireEndpoint_mem_lt (e : EndpointDescriptor) : ∀ b ∈ e.wire, b < 256 := by
  simp only [EndpointDescriptor.wire, u16be, List.append_assoc, List.cons_append,
    List.nil_append, List.mem_cons, List.not_mem_nil]
  intro b hb
  rcases hb with h | h | h | h | h | h | h | h <;>
    first
      | (subst h; omega)
      | simp_all

theorem getD_mod_self (l : List Nat) (hl : ∀ b ∈ l, b < 256) (i : Nat) :
    l.getD i 0 % 256 = l.getD i 0 := by
  by_cases h : i < l.length
  · have : l.getD i 0 ∈ l := by
      rw [List.getD_eq_getElem l 0 h]
      exact List.getElem_mem h
    exact Nat.mod_eq_of_lt (hl _ this)
  · rw [List.getD_eq_default l 0 (by omega)]

theorem processEndpoint_intr_in (out didx : Nat) (acc : Mem × List AdditionalDeviceData)
    (e : EndpointDescriptor) (h : isIntrIn e = true) :
    processEndpoint out didx acc e =
      (copyToEmu acc.1 (out + 80) e.wire,
        acc.2.set didx
          { acc.2.getD didx default with interrupt_in_endpoint := e.bEndpointAddress }) := by
  simp only [isIntrIn, Bool.and_eq_true, beq_iff_eq, bne_iff_ne, ne_eq] at h
  obtain ⟨h1, h2⟩ := h
  simp [processEndpoint, h1, h2]

theorem processEndpoint_intr_out (out didx : Nat) (acc : Mem × List AdditionalDeviceData)
    (e : EndpointDescriptor) (h : isIntrOut e = true) :
    processEndpoint out didx acc e =
      (copyToEmu acc.1 (out + 88) e.wire,
        acc.2.set didx
          { acc.2.getD didx default with interrupt_out_endpoint := e.bEndpointAddress }) := by
  simp only [isIntrOut, Bool.and_eq_true, beq_iff_eq] at h
  obtain ⟨h1, h2⟩ := h
  simp [processEndpoint, h1, h2]

theorem processEndpoint_not_intr (out didx : Nat) (acc : Mem × List AdditionalDeviceData)
    (e : EndpointDescriptor) (h : ¬e.bmAttributes = 3) :
    processEndpoint out didx acc e = acc := by
  simp [processEndpoint, h]

theorem processEndpoint_cases (out didx : Nat) (acc : Mem × List AdditionalDeviceData)
    (e : EndpointDescriptor) :
    isIntrIn e = true ∨ isIntrOut e = true ∨ processEndpoint out didx acc e = acc := by
  by_cases h1 : e.bmAttributes = 3
  · by_cases h2 : e.bEndpointAddress &&& 128 = 0
    · right; left; simp [isIntrOut, h1, h2]
    · left; simp [isIntrIn, h1, h2]
  · right; right; exact processEndpoint_not_intr out didx acc e h1

theorem processEndpoint_mem_not_in (out didx : Nat) (acc : Mem × List AdditionalDeviceData)
    (e : EndpointDescriptor) (x : Nat) (he : isIntrIn e = false)
    (hx : ¬(out + 88 ≤ x ∧ x < out + 95)) :
    (processEndpoint out didx acc e).1 x = acc.1 x := by
  rcases processEndpoint_cases out didx acc e with h | h | h
  · rw [he] at h; cases h
  · rw [processEndpoint_intr_out out didx acc e h]
    exact copyToEmu_outside e.wire acc.1 (out + 88) x (by rw [wireEndpoint_length]; omega)
  · rw [h]

theorem processEndpoint_mem_not_out (out didx : Nat) (acc : Mem × List AdditionalDeviceData)
    (e : EndpointDescriptor) (x : Nat) (he : isIntrOut e = false)
    (hx : ¬(out + 80 ≤ x ∧ x < out + 87)) :
    (processEndpoint out didx acc e).1 x = acc.1 x := by
  rcases processEndpoint_cases out didx acc e with h | h | h
  · rw [processEndpoint_intr_in out didx acc e h]
    exact copyToEmu_outside e.wire acc.1 (out + 80) x (by rw [wireEndpoint_length]; omega)
  · rw [he] at h; cases h
  · rw [h]

theorem processEndpoint_mem_outside (out didx : Nat) (acc : Mem × List AdditionalDeviceData)
    (e : EndpointDescriptor) (x : Nat)
    (h1 : ¬(out + 80 ≤ x ∧ x < out + 87)) (h2 : ¬(out + 88 ≤ x ∧ x < out + 95)) :
    (processEndpoint out didx acc e).1 x = acc.1 x := by
  rcases processEndpoint_cases out didx acc e with h | h | h
  · rw [processEndpoint_intr_in out didx acc e h]
    exact copyToEmu_outside e.wire acc.1 (out + 80) x (by rw [wireEndpoint_length]; omega)
  · rw [processEndpoint_intr_out out didx acc e h]
    exact copyToEmu_outside e.wire acc.1 (out + 88) x (by rw [wireEndpoint_length]; omega)
  · rw [h]

theorem foldl_processEndpoint_mem_outside (out didx : Nat) (eps : List EndpointDescriptor) :
    ∀ (acc : Mem × List AdditionalDeviceData) (x : Nat),
      ¬(out + 80 ≤ x ∧ x < out + 87) → ¬(out + 88 ≤ x ∧ x < out + 95) →
      (eps.foldl (processEndpoint out didx) acc).1 x = acc.1 x := by
  induction eps with
  | nil => intro acc x _ _; rfl
  | cons e eps ih =>
    intro acc x h1 h2
    simp only [List.foldl_cons]
    rw [ih (processEndpoint out didx acc e) x h1 h2]
    exact processEndpoint_mem_outside out didx acc e x h1 h2

theorem filter_cons_eq_nil {α : Type} (p : α → Bool) (a : α) (l : List α)
    (h : (a :: l).filter p = []) : p a = false ∧ l.filter p = [] := by
  by_cases hp : p a = true
  · rw [List.filter_cons, if_pos hp] at h
    cases h
  · rw [List.filter_cons, if_neg hp] at h
    exact ⟨by simpa using hp, h⟩

theorem foldl_processEndpoint_no_in_mem (out didx : Nat) (eps : List EndpointDescriptor) :
    ∀ (acc : Mem × List AdditionalDeviceData) (x : Nat),
      eps.filter isIntrIn = [] → ¬(out + 88 ≤ x ∧ x < out + 95) →
      (eps.foldl (processEndpoint out didx) acc).1 x = acc.1 x := by
  induction eps with
  | nil => intro acc x _ _; rfl
  | cons e eps ih =>
    intro acc x h hx
    obtain ⟨he, heps⟩ := filter_cons_eq_nil isIntrIn e eps h
    simp only [List.foldl_cons]
    rw [ih (processEndpoint out didx acc e) x heps hx]
    exact processEndpoint_mem_not_in out didx acc e x he hx

theorem foldl_processEndpoint_no_out_mem (out didx : Nat) (eps : List EndpointDescriptor) :
    ∀ (acc : Mem × List AdditionalDeviceData) (x : Nat),
      eps.filter isIntrOut = [] → ¬(out + 80 ≤ x ∧ x < out + 87) →
      (eps.foldl (processEndpoint out didx) acc).1 x = acc.1 x := by
  induction eps with
  | nil => intro acc x _ _; rfl
  | cons e eps ih =>
    intro acc x h hx
    obtain ⟨he, heps⟩ := filter_cons_eq_nil isIntrOut e eps h
    simp only [List.foldl_cons]
    rw [ih (processEndpoint out didx acc e) x heps hx]
    exact processEndpoint_mem_not_out out didx acc e x he hx

theorem foldl_processEndpoint_in_content (out didx : Nat) (eps : List EndpointDescriptor) :
    ∀ (acc : Mem × List AdditionalDeviceData) (epIn : EndpointDescriptor) (i : Nat),
      i < 7 → eps.filter isIntrIn = [epIn] →
      (eps.foldl (processEndpoint out didx) acc).1 (out + 80 + i) = epIn.wire.getD i 0 % 256 := by
  induction eps with
  | nil => intro acc epIn i _ h; cases h
  | cons e eps ih =>
    intro acc epIn i hi h
    by_cases he : isIntrIn e = true
    · rw [List.filter_cons, if_pos he] at h
      have he2 : e = epIn := by
        injection h
      have heps : eps.filter isIntrIn = [] := by
        injection h with h1 h2
      subst he2
      simp only [List.foldl_cons]
      rw [foldl_processEndpoint_no_in_mem out didx eps (processEndpoint out didx acc e)
        (out + 80 + i) heps (by omega)]
      rw [processEndpoint_intr_in out didx acc e he]
      have hadd : out + 80 + i = (out + 80) + i := by omega
      rw [hadd]
      exact copyToEmu_getD e.wire acc.1 (out + 80) i (by rw [wireEndpoint_length]; omega)
    · rw [List.filter_cons, if_neg he] at h
      simp only [List.foldl_cons]
      exact ih (processEndpoint out didx acc e) epIn i hi h

theorem foldl_processEndpoint_out_content (out didx : Nat) (eps : List EndpointDescriptor) :
    ∀ (acc : Mem × List AdditionalDeviceData) (epOut : EndpointDescriptor) (i : Nat),
      i < 7 → eps.filter isIntrOut = [epOut] →
      (eps.foldl (processEndpoint out didx) acc).1 (out + 88 + i) =
        epOut.wire.getD i 0 % 256 := by
  induction eps with
  | nil => intro acc epOut i _ h; cases h
  | cons e eps ih =>
    intro acc epOut i hi h
    by_cases he : isIntrOut e = true
    · rw [List.filter_cons, if_pos he] at h
      have he2 : e = epOut := by
        injection h
      have heps : eps.filter isIntrOut = [] := by
        injection h with h1 h2
      subst he2
      simp only [List.foldl_cons]
      rw [foldl_processEndpoint_no_out_mem out didx eps (processEndpoint out didx acc e)
        (out + 88 + i) heps (by omega)]
      rw [processEndpoint_intr_out out didx acc e he]
      have hadd : out + 88 + i = (out + 88) + i := by omega
      rw [hadd]
      exact copyToEmu_getD e.wire acc.1 (out + 88) i (by rw [wireEndpoint_length]; omega)
    · rw [List.filter_cons, if_neg he] at h
      simp only [List.foldl_cons]
      exact ih (processEndpoint out didx acc e) epOut i hi h

theorem getD_set_self {α : Type} [Inhabited α] (l : List α) (i : Nat) (a : α)
    (h : i < l.length) : (l.set i a).getD i default = a := by
  rw [List.getD_eq_getElem _ _ (by simpa using h)]
  simp [List.getElem_set]

theorem processEndpoint_in_field (out didx : Nat) (acc : Mem × List AdditionalDeviceData)
    (e : EndpointDescriptor) (he : isIntrIn e = false) :
    ((processEndpoint out didx acc e).2.getD didx default).interrupt_in_endpoint =
      (acc.2.getD didx default).interrupt_in_endpoint := by
  rcases processEndpoint_cases out didx acc e with h | h | h
  · rw [he] at h; cases h
  · rw [processEndpoint_intr_out out didx acc e h]
    by_cases hl : didx < acc.2.length
    · rw [getD_set_self acc.2 didx _ hl]
    · rw [List.set_eq_of_length_le (by omega)]
  · rw [h]

theorem processEndpoint_out_field (out didx : Nat) (acc : Mem × List AdditionalDeviceData)
    (e : EndpointDescriptor) (he : isIntrOut e = false) :
    ((processEndpoint out didx acc e).2.getD didx default).interrupt_out_endpoint =
      (acc.2.getD didx default).interrupt_out_endpoint := by
  rcases processEndpoint_cases out didx acc e with h | h | h
  · rw [processEndpoint_intr_in out didx acc e h]
    by_cases hl : didx < acc.2.length
    · rw [getD_set_self acc.2 didx _ hl]
    · rw [List.set_eq_of_length_le (by omega)]
  · rw [he] at h; cases h
  · rw [h]

theorem foldl_processEndpoint_in_field (out didx : Nat) (eps : List EndpointDescriptor) :
    ∀ (acc : Mem × List AdditionalDeviceData), eps.filter isIntrIn = [] →
      ((eps.foldl (processEndpoint out didx) acc).2.getD didx default).interrupt_in_endpoint =
        (acc.2.getD didx default).interrupt_in_endpoint := by
  induction eps with
  | nil => intro acc _; rfl
  | cons e eps ih =>
    intro acc h
    obtain ⟨he, heps⟩ := filter_cons_eq_nil isIntrIn e eps h
    simp only [List.foldl_cons]
    rw [ih (processEndpoint out didx acc e) heps]
    exact processEndpoint_in_field out didx acc e he

theorem foldl_processEndpoint_out_field (out didx : Nat) (eps : List EndpointDescriptor) :
    ∀ (acc : Mem × List AdditionalDeviceData), eps.filter isIntrOut = [] →
      ((eps.foldl (processEndpoint out didx) acc).2.getD didx default).interrupt_out_endpoint =
        (acc.2.getD didx default).interrupt_out_endpoint := by
  induction eps with
  | nil => intro acc _; rfl
  | cons e eps ih =>
    intro acc h
    obtain ⟨he, heps⟩ := filter_cons_eq_nil isIntrOut e eps h
    simp only [List.foldl_cons]
    rw [ih (processEndpoint out didx acc e) heps]
    exact processEndpoint_out_field out didx acc e he


theorem getDeviceInfo_eq_abort (s : HIDState) (didx : Nat) (device : USBV5Device)
    (request : IOCtlRequest)
    (hbo : request.buffer_out ≠ 0) (hbs : request.buffer_out_size = 0x60)
    (hfind : (s.hostDevices device.host_id).interfaces.find? (fun itf =>
        itf.bInterfaceNumber == device.interface_number &&
          itf.bAlternateSetting == readU8 s.mem (request.buffer_in + 8)) = none) :
    USB_HIDv5.GetDeviceInfo s didx device request =
      (IPC_EINVAL,
        { s with
            mem := assembledMem s.mem request.buffer_out request.buffer_in
              (s.hostDevices device.host_id).deviceDescriptor.wire
              ((s.hostDevices device.host_id).configurations.headD default).wire }) := by
  unfold USB_HIDv5.GetDeviceInfo assembledMem
  rw [if_neg (by push_neg; exact ⟨hbo, hbs⟩), hbs]
  simp only [hfind]

theorem getDeviceInfo_eq_success (s : HIDState) (didx : Nat) (device : USBV5Device)
    (request : IOCtlRequest) (itf : InterfaceDescriptor)
    (hbo : request.buffer_out ≠ 0) (hbs : request.buffer_out_size = 0x60)
    (hfind : (s.hostDevices device.host_id).interfaces.find? (fun i =>
        i.bInterfaceNumber == device.interface_number &&
          i.bAlternateSetting == readU8 s.mem (request.buffer_in + 8)) = some itf) :
    USB_HIDv5.GetDeviceInfo s didx device request =
      (IPC_SUCCESS,
        { s with
            mem := (deviceInfoLoop request.buffer_out didx
                ((s.hostDevices device.host_id).endpoints itf.bInterfaceNumber
                  itf.bAlternateSetting)
                (copyToEmu
                  (assembledMem s.mem request.buffer_out request.buffer_in
                    (s.hostDevices device.host_id).deviceDescriptor.wire
                    ((s.hostDevices device.host_id).configurations.headD default).wire)
                  (request.buffer_out + 68) itf.wire)
                s.additional_device_data).1,
            additional_device_data := (deviceInfoLoop request.buffer_out didx
                ((s.hostDevices device.host_id).endpoints itf.bInterfaceNumber
                  itf.bAlternateSetting)
                (copyToEmu
                  (assembledMem s.mem request.buffer_out request.buffer_in
                    (s.hostDevices device.host_id).deviceDescriptor.wire
                    ((s.hostDevices device.host_id).configurations.headD default).wire)
                  (request.buffer_out + 68) itf.wire)
                s.additional_device_data).2 }) := by
  unfold USB_HIDv5.GetDeviceInfo assembledMem deviceInfoLoop
  rw [if_neg (by push_neg; exact ⟨hbo, hbs⟩), hbs]
  simp only [hfind]

theorem assembledMem_gap_zero (mem : Mem) (out bin : Nat) (dw cw : List Nat)
    (hdw : dw.length = 18) (hcw : cw.length = 9) (k : Nat)
    (hk : (8 ≤ k ∧ k < 36) ∨ (54 ≤ k ∧ k < 56) ∨ (65 ≤ k ∧ k < 96)) :
    readU8 (assembledMem mem out bin dw cw) (out + k) = 0 := by
  unfold assembledMem readU8
  rw [copyToEmu_outside cw _ _ _ (by rw [hcw]; omega)]
  rw [copyToEmu_outside dw _ _ _ (by rw [hdw]; omega)]
  rw [writeU32_outside _ _ _ _ (by omega)]
  rw [writeU32_outside _ _ _ _ (by omega)]
  rw [memset_inside _ _ _ _ _ (by omega) (by omega)]

theorem assembledMem_device_bytes (mem : Mem) (out bin : Nat) (dw cw : List Nat)
    (hdw : dw.length = 18) (hcw : cw.length = 9) (i : Nat) (hi : i < 18) :
    readU8 (assembledMem mem out bin dw cw) (out + 36 + i) = dw.getD i 0 % 256 := by
  unfold assembledMem readU8
  rw [copyToEmu_outside cw _ _ _ (by rw [hcw]; omega)]
  have hadd : out + 36 + i = (out + 36) + i := rfl
  rw [hadd, copyToEmu_getD dw _ _ i (by omega)]
  omega

theorem assembledMem_config_bytes (mem : Mem) (out bin : Nat) (dw cw : List Nat)
    (_hdw : dw.length = 18) (hcw : cw.length = 9) (i : Nat) (hi : i < 9) :
    readU8 (assembledMem mem out bin dw cw) (out + 56 + i) = cw.getD i 0 % 256 := by
  unfold assembledMem readU8
  have hadd : out + 56 + i = (out + 56) + i := rfl
  rw [hadd, copyToEmu_getD cw _ _ i (by omega)]
  omega

theorem assembledMem_slot1 (mem : Mem) (out bin : Nat) (dw cw : List Nat)
    (hdw : dw.length = 18) (hcw : cw.length = 9) :
    readU32 (assembledMem mem out bin dw cw) (out + 4) = 1 := by
  unfold assembledMem
  rw [readU32_congr _ (writeU32 (writeU32 (memset mem out 0 96) out
      (readU32 (memset mem out 0 96) bin)) (out + 4) 1) (out + 4) (fun j hj => by
    rw [copyToEmu_outside cw _ _ _ (by rw [hcw]; omega),
      copyToEmu_outside dw _ _ _ (by rw [hdw]; omega)])]
  rw [readU32_writeU32]

theorem assembledMem_handle (mem : Mem) (out bin : Nat) (dw cw : List Nat)
    (hdw : dw.length = 18) (hcw : cw.length = 9) :
    readU32 (assembledMem mem out bin dw cw) out = readU32 (memset mem out 0 96) bin := by
  unfold assembledMem
  rw [readU32_congr _ (writeU32 (writeU32 (memset mem out 0 96) out
      (readU32 (memset mem out 0 96) bin)) (out + 4) 1) out (fun j hj => by
    rw [copyToEmu_outside cw _ _ _ (by rw [hcw]; omega),
      copyToEmu_outside dw _ _ _ (by rw [hdw]; omega)])]
  rw [readU32_congr _ (writeU32 (memset mem out 0 96) out
      (readU32 (memset mem out 0 96) bin)) out (fun j hj => by
    rw [writeU32_outside _ _ _ _ (by omega)])]
  rw [readU32_writeU32]
  exact Nat.mod_eq_of_lt (readU32_lt _ _)

theorem readU32_memset_disjoint (mem : Mem) (out bin : Nat)
    (hdisj : bin + 4 ≤ out ∨ out + 96 ≤ bin) :
    readU32 (memset mem out 0 96) bin = readU32 mem bin := by
  exact readU32_congr _ mem bin (fun j hj =>
    memset_outside mem out 0 96 (bin + j) (by omega))

/-- C4: for every successful GET_DEVICE_PARAMETERS request, the 0x60-byte
output buffer is zero-filled and then written at exactly the fixed offsets:
the input handle at 0, the constant 1 at 4, the swapped device descriptor at
36, the swapped first configuration descriptor at 56, the swapped matching
interface descriptor at 68, the swapped interrupt-IN endpoint descriptor (if
present) at 80 and the interrupt-OUT one (if present) at 88; non-interrupt
endpoints are ignored and every untouched byte of the buffer is zero. -/
theorem getDeviceInfo_success_layout (s : HIDState) (didx : Nat) (device : USBV5Device)
    (request : IOCtlRequest) (itf : InterfaceDescriptor)
    (hbo : request.buffer_out ≠ 0) (hbs : request.buffer_out_size = 0x60)
    (hfind : (s.hostDevices device.host_id).interfaces.find? (fun i =>
        i.bInterfaceNumber == device.interface_number &&
          i.bAlternateSetting == readU8 s.mem (request.buffer_in + 8)) = some itf)
    (hdisj : request.buffer_in + 4 ≤ request.buffer_out ∨
      request.buffer_out + 96 ≤ request.buffer_in) :
    (USB_HIDv5.GetDeviceInfo s didx device request).1 = IPC_SUCCESS ∧
      readU32 (USB_HIDv5.GetDeviceInfo s didx device request).2.mem request.buffer_out =
        readU32 s.mem request.buffer_in ∧
      readU32 (USB_HIDv5.GetDeviceInfo s didx device request).2.mem
        (request.buffer_out + 4) = 1 ∧
      (∀ i, i < 18 → readU8 (USB_HIDv5.GetDeviceInfo s didx device request).2.mem
        (request.buffer_out + 36 + i) =
        (s.hostDevices device.host_id).deviceDescriptor.wire.getD i 0) ∧
      (∀ i, i < 9 → readU8 (USB_HIDv5.GetDeviceInfo s didx device request).2.mem
        (request.buffer_out + 56 + i) =
        ((s.hostDevices device.host_id).configurations.headD default).wire.getD i 0) ∧
      (∀ i, i < 9 → readU8 (USB_HIDv5.GetDeviceInfo s didx device request).2.mem
        (request.buffer_out + 68 + i) = itf.wire.getD i 0) ∧
      (((s.hostDevices device.host_id).endpoints itf.bInterfaceNumber
          itf.bAlternateSetting).filter isIntrIn = [] →
        ∀ i, i < 8 → readU8 (USB_HIDv5.GetDeviceInfo s didx device request).2.mem
          (request.buffer_out + 80 + i) = 0) ∧
      (∀ epIn, ((s.hostDevices device.host_id).endpoints itf.bInterfaceNumber
          itf.bAlternateSetting).filter isIntrIn = [epIn] →
        ∀ i, i < 7 → readU8 (USB_HIDv5.GetDeviceInfo s didx device request).2.mem
          (request.buffer_out + 80 + i) = epIn.wire.getD i 0) ∧
      (((s.hostDevices device.host_id).endpoints itf.bInterfaceNumber
          itf.bAlternateSetting).filter isIntrOut = [] →
        ∀ i, i < 8 → readU8 (USB_HIDv5.GetDeviceInfo s didx device request).2.mem
          (request.buffer_out + 88 + i) = 0) ∧
      (∀ epOut, ((s.hostDevices device.host_id).endpoints itf.bInterfaceNumber
          itf.bAlternateSetting).filter isIntrOut = [epOut] →
        ∀ i, i < 7 → readU8 (USB_HIDv5.GetDeviceInfo s didx device request).2.mem
          (request.buffer_out + 88 + i) = epOut.wire.getD i 0) ∧
      (∀ k, (8 ≤ k ∧ k < 36) ∨ (54 ≤ k ∧ k < 56) ∨ (65 ≤ k ∧ k < 68) ∨
          (77 ≤ k ∧ k < 80) ∨ k = 87 ∨ k = 95 →
        readU8 (USB_HIDv5.GetDeviceInfo s didx device request).2.mem
          (request.buffer_out + k) = 0) := by
  rw [getDeviceInfo_eq_success s didx device request itf hbo hbs hfind]
  dsimp only
  unfold deviceInfoLoop
  set out := request.buffer_out with hout
  set bin := request.buffer_in with hbin
  set dw := (s.hostDevices device.host_id).deviceDescriptor.wire with hdw
  set cw := ((s.hostDevices device.host_id).configurations.headD default).wire with hcw
  set eps := (s.hostDevices device.host_id).endpoints itf.bInterfaceNumber
    itf.bAlternateSetting with heps
  set A := assembledMem s.mem out bin dw cw with hA
  set m5 := copyToEmu A (out + 68) itf.wire with hm5
  have hdwlen : dw.length = 18 := wireDevice_length _
  have hcwlen : cw.length = 9 := wireConfig_length _
  have hframe0 : ∀ x, ¬(out + 80 ≤ x ∧ x < out + 87) → ¬(out + 88 ≤ x ∧ x < out + 95) →
      (eps.foldl (processEndpoint out didx) (m5, s.additional_device_data)).1 x = m5 x :=
    fun x h1 h2 =>
      foldl_processEndpoint_mem_outside out didx eps (m5, s.additional_device_data) x h1 h2
  have hnoin : eps.filter isIntrIn = [] → ∀ x, ¬(out + 88 ≤ x ∧ x < out + 95) →
      (eps.foldl (processEndpoint out didx) (m5, s.additional_device_data)).1 x = m5 x :=
    fun hf x hx =>
      foldl_processEndpoint_no_in_mem out didx eps (m5, s.additional_device_data) x hf hx
  have hnoout : eps.filter isIntrOut = [] → ∀ x, ¬(out + 80 ≤ x ∧ x < out + 87) →
      (eps.foldl (processEndpoint out didx) (m5, s.additional_device_data)).1 x = m5 x :=
    fun hf x hx =>
      foldl_processEndpoint_no_out_mem out didx eps (m5, s.additional_device_data) x hf hx
  have hincontent : ∀ epIn, eps.filter isIntrIn = [epIn] → ∀ i, i < 7 →
      (eps.foldl (processEndpoint out didx) (m5, s.additional_device_data)).1 (out + 80 + i) =
        epIn.wire.getD i 0 % 256 :=
    fun epIn hf i hi =>
      foldl_processEndpoint_in_content out didx eps (m5, s.additional_device_data) epIn i hi hf
  have houtcontent : ∀ epOut, eps.filter isIntrOut = [epOut] → ∀ i, i < 7 →
      (eps.foldl (processEndpoint out didx) (m5, s.additional_device_data)).1 (out + 88 + i) =
        epOut.wire.getD i 0 % 256 :=
    fun epOut hf i hi =>
      foldl_processEndpoint_out_content out didx eps (m5, s.additional_device_data) epOut i hi hf
  have hm5out : ∀ x, x < out + 68 ∨ out + 77 ≤ x → m5 x = A x := fun x hx => by
    rw [hm5]
    exact copyToEmu_outside itf.wire A (out + 68) x (by rw [wireInterface_length]; omega)
  refine ⟨rfl, ?_, ?_, ?_, ?_, ?_, ?_, ?_, ?_, ?_, ?_⟩
  · rw [readU32_congr _ m5 out (fun j hj => hframe0 (out + j) (by omega) (by omega))]
    rw [readU32_congr _ A out (fun j hj => hm5out (out + j) (by omega))]
    rw [hA, assembledMem_handle s.mem out bin dw cw hdwlen hcwlen]
    exact readU32_memset_disjoint s.mem out bin hdisj
  · rw [readU32_congr _ m5 (out + 4) (fun j hj => hframe0 (out + 4 + j) (by omega) (by omega))]
    rw [readU32_congr _ A (out + 4) (fun j hj => hm5out (out + 4 + j) (by omega))]
    rw [hA]
    exact assembledMem_slot1 s.mem out bin dw cw hdwlen hcwlen
  · intro i hi
    unfold readU8
    rw [hframe0 (out + 36 + i) (by omega) (by omega)]
    rw [hm5out (out + 36 + i) (by omega)]
    have hb := assembledMem_device_bytes s.mem out bin dw cw hdwlen hcwlen i hi
    unfold readU8 at hb
    rw [← hA] at hb
    rw [hb]
    exact getD_mod_self dw (wireDevice_mem_lt _) i
  · intro i hi
    unfold readU8
    rw [hframe0 (out + 56 + i) (by omega) (by omega)]
    rw [hm5out (out + 56 + i) (by omega)]
    have hb := assembledMem_config_bytes s.mem out bin dw cw hdwlen hcwlen i hi
    unfold readU8 at hb
    rw [← hA] at hb
    rw [hb]
    exact getD_mod_self cw (wireConfig_mem_lt _) i
  · intro i hi
    unfold readU8
    rw [hframe0 (out + 68 + i) (by omega) (by omega)]
    rw [hm5]
    have hadd : out + 68 + i = (out + 68) + i := rfl
    rw [hadd, copyToEmu_getD itf.wire A (out + 68) i (by rw [wireInterface_length]; omega)]
    simp only [getD_mod_self itf.wire (wireInterface_mem_lt itf) i]
  · intro hfil i hi
    unfold readU8
    rw [hnoin hfil (out + 80 + i) (by omega)]
    rw [hm5out (out + 80 + i) (by omega)]
    have hb := assembledMem_gap_zero s.mem out bin dw cw hdwlen hcwlen (80 + i) (by omega)
    unfold readU8 at hb
    rw [← hA] at hb
    have hadd : out + 80 + i = out + (80 + i) := by omega
    rw [hadd]
    exact hb
  · intro epIn hfil i hi
    unfold readU8
    rw [hincontent epIn hfil i hi]
    simp only [getD_mod_self epIn.wire (wireEndpoint_mem_lt epIn) i]
  · intro hfil i hi
    unfold readU8
    rw [hnoout hfil (out + 88 + i) (by omega)]
    rw [hm5out (out + 88 + i) (by omega)]
    have hb := assembledMem_gap_zero s.mem out bin dw cw hdwlen hcwlen (88 + i) (by omega)
    unfold readU8 at hb
    rw [← hA] at hb
    have hadd : out + 88 + i = out + (88 + i) := by omega
    rw [hadd]
    exact hb
  · intro epOut hfil i hi
    unfold readU8
    rw [houtcontent epOut hfil i hi]
    simp only [getD_mod_self epOut.wire (wireEndpoint_mem_lt epOut) i]
  · intro k hk
    unfold readU8
    rw [hframe0 (out + k) (by omega) (by omega)]
    rw [hm5out (out + k) (by omega)]
    have hb := assembledMem_gap_zero s.mem out bin dw cw hdwlen hcwlen k (by omega)
    unfold readU8 at hb
    rw [← hA] at hb
    exact hb

/-- C1 (amended): a GET_DEVICE_PARAMETERS request whose alternate setting
matches no interface is answered with InvalidArgument; the interface and
endpoint regions of the output buffer (and all other unwritten gaps) remain
zero, but the handle, the constant 1, the device descriptor and the first
configuration descriptor have already been written, and the endpoint side
table is untouched. -/
theorem getDeviceInfo_no_matching_interface_abort (s : HIDState) (didx : Nat)
    (device : USBV5Device) (request : IOCtlRequest)
    (hbo : request.buffer_out ≠ 0) (hbs : request.buffer_out_size = 0x60)
    (hfind : (s.hostDevices device.host_id).interfaces.find? (fun i =>
        i.bInterfaceNumber == device.interface_number &&
          i.bAlternateSetting == readU8 s.mem (request.buffer_in + 8)) = none) :
    (USB_HIDv5.GetDeviceInfo s didx device request).1 = IPC_EINVAL ∧
      (∀ k, (8 ≤ k ∧ k < 36) ∨ (54 ≤ k ∧ k < 56) ∨ (65 ≤ k ∧ k < 96) →
        readU8 (USB_HIDv5.GetDeviceInfo s didx device request).2.mem
          (request.buffer_out + k) = 0) ∧
      readU32 (USB_HIDv5.GetDeviceInfo s didx device request).2.mem
        (request.buffer_out + 4) = 1 ∧
      (∀ i, i < 18 → readU8 (USB_HIDv5.GetDeviceInfo s didx device request).2.mem
        (request.buffer_out + 36 + i) =
        (s.hostDevices device.host_id).deviceDescriptor.wire.getD i 0) ∧
      (∀ i, i < 9 → readU8 (USB_HIDv5.GetDeviceInfo s didx device request).2.mem
        (request.buffer_out + 56 + i) =
        ((s.hostDevices device.host_id).configurations.headD default).wire.getD i 0) ∧
      (USB_HIDv5.GetDeviceInfo s didx device request).2.additional_device_data =
        s.additional_device_data := by
  rw [getDeviceInfo_eq_abort s didx device request hbo hbs hfind]
  dsimp only
  set out := request.buffer_out with hout
  set bin := request.buffer_in with hbin
  set dw := (s.hostDevices device.host_id).deviceDescriptor.wire with hdw
  set cw := ((s.hostDevices device.host_id).configurations.headD default).wire with hcw
  have hdwlen : dw.length = 18 := wireDevice_length _
  have hcwlen : cw.length = 9 := wireConfig_length _
  refine ⟨rfl, ?_, ?_, ?_, ?_, rfl⟩
  · intro k hk
    exact assembledMem_gap_zero s.mem out bin dw cw hdwlen hcwlen k hk
  · exact assembledMem_slot1 s.mem out bin dw cw hdwlen hcwlen
  · intro i hi
    rw [assembledMem_device_bytes s.mem out bin dw cw hdwlen hcwlen i hi]
    exact getD_mod_self dw (wireDevice_mem_lt _) i
  · intro i hi
    rw [assembledMem_config_bytes s.mem out bin dw cw hdwlen hcwlen i hi]
    exact getD_mod_self cw (wireConfig_mem_lt _) i

/-- C1, witness for the amended theorem at a concrete mismatching request. -/
theorem getDeviceInfo_no_matching_interface_abort_witness :
    sampleRequest.buffer_out ≠ 0 ∧ sampleRequest.buffer_out_size = 0x60 ∧
      ((sampleStateAlt.hostDevices sampleDevice.host_id).interfaces.find? (fun i =>
        i.bInterfaceNumber == sampleDevice.interface_number &&
          i.bAlternateSetting == readU8 sampleStateAlt.mem (sampleRequest.buffer_in + 8)) =
        none) ∧
      (USB_HIDv5.GetDeviceInfo sampleStateAlt 0 sampleDevice sampleRequest).1 = IPC_EINVAL :=
  ⟨by decide, rfl, by decide,
    (getDeviceInfo_no_matching_interface_abort sampleStateAlt 0 sampleDevice sampleRequest
      (by decide) rfl (by decide)).1⟩

/-- C1, counterexample to the claim as stated: on the alternate-setting
mismatch the handler does return InvalidArgument, but the output buffer is
not fully zero: the byte at offset 3 holds the low byte of the written
handle. -/
theorem getDeviceInfo_abort_buffer_not_zero_counterexample :
    (USB_HIDv5.GetDeviceInfo sampleStateAlt 0 sampleDevice sampleRequest).1 = IPC_EINVAL ∧
      ¬(∀ k, k < 0x60 →
        readU8 (USB_HIDv5.GetDeviceInfo sampleStateAlt 0 sampleDevice sampleRequest).2.mem
          (sampleRequest.buffer_out + k) = 0) := by
  refine ⟨by decide, fun h => ?_⟩
  have h3 := h 3 (by decide)
  revert h3
  decide

/-- C2: a vectored control- or interrupt-message request whose combined
input+output vector count differs from 2 is answered with InvalidArgument
immediately, with the whole state (device registry, endpoint side table,
guest memory) untouched and without resolving any device. -/
theorem ioctlv_bad_vector_count_einval (s : HIDState) (request : IOCtlVRequest)
    (hreq : request.request = IOCTLV_USBV5_CTRLMSG ∨ request.request = IOCTLV_USBV5_INTRMSG)
    (hcount : request.in_vectors.length + request.io_vectors.length ≠ 2) :
    USB_HIDv5.IOCtlV s request = (IOCtlVResult.reply IPC_EINVAL, s) := by
  unfold USB_HIDv5.IOCtlV
  rw [if_pos hreq, if_pos hcount]

/-- C2, witness: the zero-vector interrupt request on the sample state. -/
theorem ioctlv_bad_vector_count_einval_witness :
    (sampleBadVectored.request = IOCTLV_USBV5_CTRLMSG ∨
        sampleBadVectored.request = IOCTLV_USBV5_INTRMSG) ∧
      sampleBadVectored.in_vectors.length + sampleBadVectored.io_vectors.length ≠ 2 ∧
      USB_HIDv5.IOCtlV sampleState sampleBadVectored =
        (IOCtlVResult.reply IPC_EINVAL, sampleState) :=
  ⟨by decide, by decide,
    ioctlv_bad_vector_count_einval sampleState sampleBadVectored (by decide) (by decide)⟩

/-- C5: a GET_DEVICE_PARAMETERS request with output address zero or output
size different from 0x60 is answered with InvalidArgument and the state (in
particular guest memory) is unchanged. -/
theorem getDevParams_bad_buffer_einval
    (getDeviceChange shutdown : HIDState → IOCtlRequest → Int × HIDState)
    (suspendResume : HIDState → USBV5Device → IOCtlRequest → Int × HIDState)
    (s : HIDState) (request : IOCtlRequest)
    (hreq : request.request = IOCTL_USBV5_GETDEVPARAMS)
    (hbad : request.buffer_out = 0 ∨ request.buffer_out_size ≠ 0x60) :
    USB_HIDv5.IOCtl getDeviceChange shutdown suspendResume s request = (IPC_EINVAL, s) := by
  unfold USB_HIDv5.IOCtl
  rw [hreq]
  simp only [IOCTL_USBV5_GETVERSION, IOCTL_USBV5_GETDEVICECHANGE, IOCTL_USBV5_SHUTDOWN,
    IOCTL_USBV5_GETDEVPARAMS]
  norm_num
  unfold handleDeviceIOCtl
  cases hdev : getUSBV5Device s request.buffer_in with
  | none => rfl
  | some pair =>
    obtain ⟨i, d⟩ := pair
    dsimp only
    unfold USB_HIDv5.GetDeviceInfo
    rw [if_pos hbad]

/-- C5, witness: output buffer address zero. -/
theorem getDevParams_bad_buffer_einval_witness :
    sampleBadParamsRequest.request = IOCTL_USBV5_GETDEVPARAMS ∧
      (sampleBadParamsRequest.buffer_out = 0 ∨
        sampleBadParamsRequest.buffer_out_size ≠ 0x60) ∧
      USB_HIDv5.IOCtl (fun s1 _ => (IPC_SUCCESS, s1)) (fun s1 _ => (IPC_SUCCESS, s1))
        (fun s1 _ _ => (IPC_SUCCESS, s1)) sampleState sampleBadParamsRequest =
        (IPC_EINVAL, sampleState) :=
  ⟨by decide, by decide,
    getDevParams_bad_buffer_einval (fun s1 _ => (IPC_SUCCESS, s1))
      (fun s1 _ => (IPC_SUCCESS, s1)) (fun s1 _ _ => (IPC_SUCCESS, s1)) sampleState
      sampleBadParamsRequest (by decide) (by decide)⟩

/-- C6: a discrete command whose identifier is outside the recognized set is
answered with success and the state (in particular guest memory) is
unchanged. -/
theorem ioctl_unknown_request_success
    (getDeviceChange shutdown : HIDState → IOCtlRequest → Int × HIDState)
    (suspendResume : HIDState → USBV5Device → IOCtlRequest → Int × HIDState)
    (s : HIDState) (request : IOCtlRequest)
    (h : request.request ∉ [IOCTL_USBV5_GETVERSION, IOCTL_USBV5_GETDEVICECHANGE,
      IOCTL_USBV5_SHUTDOWN, IOCTL_USBV5_GETDEVPARAMS, IOCTL_USBV5_ATTACHFINISH,
      IOCTL_USBV5_SUSPEND_RESUME, IOCTL_USBV5_CANCELENDPOINT]) :
    USB_HIDv5.IOCtl getDeviceChange shutdown suspendResume s request = (IPC_SUCCESS, s) := by
  simp only [List.mem_cons, List.not_mem_nil, or_false, not_or] at h
  obtain ⟨h1, h2, h3, h4, h5, h6, h7⟩ := h
  unfold USB_HIDv5.IOCtl
  rw [if_neg h1, if_neg h2, if_neg h3, if_neg h4, if_neg h5, if_neg h6, if_neg h7]

/-- C6, witness: command identifier 42. -/
theorem ioctl_unknown_request_success_witness :
    sampleUnknownRequest.request ∉ [IOCTL_USBV5_GETVERSION, IOCTL_USBV5_GETDEVICECHANGE,
        IOCTL_USBV5_SHUTDOWN, IOCTL_USBV5_GETDEVPARAMS, IOCTL_USBV5_ATTACHFINISH,
        IOCTL_USBV5_SUSPEND_RESUME, IOCTL_USBV5_CANCELENDPOINT] ∧
      USB_HIDv5.IOCtl (fun s1 _ => (IPC_SUCCESS, s1)) (fun s1 _ => (IPC_SUCCESS, s1))
        (fun s1 _ _ => (IPC_SUCCESS, s1)) sampleState sampleUnknownRequest =
        (IPC_SUCCESS, sampleState) :=
  ⟨by decide,
    ioctl_unknown_request_success (fun s1 _ => (IPC_SUCCESS, s1))
      (fun s1 _ => (IPC_SUCCESS, s1)) (fun s1 _ _ => (IPC_SUCCESS, s1)) sampleState
      sampleUnknownRequest (by decide)⟩

/-- C7: CancelEndpoint reads the 32-bit selector at offset 8 of the input
buffer, truncates it to one byte, passes it with the device's host id to the
host cancellation operation, leaves guest memory untouched and always
returns success, whether or not any transfer was in flight. -/
theorem cancelEndpoint_always_success (s : HIDState) (device : USBV5Device)
    (request : IOCtlRequest) :
    USB_HIDv5.CancelEndpoint s device request =
      (IPC_SUCCESS,
        { s with cancelled := s.cancelled ++
            [(device.host_id, readU32 s.mem (request.buffer_in + 8) % 256)] }) :=
  rfl

/-- C8: GET_VERSION writes exactly 0x50001 to the output buffer and returns
success, from any prior state. -/
theorem getversion_writes_version
    (getDeviceChange shutdown : HIDState → IOCtlRequest → Int × HIDState)
    (suspendResume : HIDState → USBV5Device → IOCtlRequest → Int × HIDState)
    (s : HIDState) (request : IOCtlRequest)
    (hreq : request.request = IOCTL_USBV5_GETVERSION) :
    USB_HIDv5.IOCtl getDeviceChange shutdown suspendResume s request =
      (IPC_SUCCESS, { s with mem := writeU32 s.mem request.buffer_out USBV5_VERSION }) ∧
      readU32 (USB_HIDv5.IOCtl getDeviceChange shutdown suspendResume s request).2.mem
        request.buffer_out = 0x50001 := by
  have heq : USB_HIDv5.IOCtl getDeviceChange shutdown suspendResume s request =
      (IPC_SUCCESS, { s with mem := writeU32 s.mem request.buffer_out USBV5_VERSION }) := by
    unfold USB_HIDv5.IOCtl
    rw [hreq, if_pos rfl]
  refine ⟨heq, ?_⟩
  rw [heq]
  dsimp only
  rw [readU32_writeU32]
  decide

/-- C8, witness: GET_VERSION on the sample state. -/
theorem getversion_writes_version_witness :
    sampleVersionRequest.request = IOCTL_USBV5_GETVERSION ∧
      readU32 (USB_HIDv5.IOCtl (fun s1 _ => (IPC_SUCCESS, s1)) (fun s1 _ => (IPC_SUCCESS, s1))
        (fun s1 _ _ => (IPC_SUCCESS, s1)) sampleState sampleVersionRequest).2.mem
        sampleVersionRequest.buffer_out = 0x50001 :=
  ⟨by decide,
    (getversion_writes_version (fun s1 _ => (IPC_SUCCESS, s1)) (fun s1 _ => (IPC_SUCCESS, s1))
      (fun s1 _ _ => (IPC_SUCCESS, s1)) sampleState sampleVersionRequest (by decide)).2⟩

/-- C9: a vectored request whose identifier is neither the control- nor the
interrupt-message command is answered with InvalidArgument, while a discrete
request with an unrecognized identifier is answered with success. -/
theorem ioctlv_unknown_einval_vs_ioctl_success
    (getDeviceChange shutdown : HIDState → IOCtlRequest → Int × HIDState)
    (suspendResume : HIDState → USBV5Device → IOCtlRequest → Int × HIDState)
    (s : HIDState) (vrequest : IOCtlVRequest) (request : IOCtlRequest)
    (hv : vrequest.request ≠ IOCTLV_USBV5_CTRLMSG ∧ vrequest.request ≠ IOCTLV_USBV5_INTRMSG)
    (hd : request.request ∉ [IOCTL_USBV5_GETVERSION, IOCTL_USBV5_GETDEVICECHANGE,
      IOCTL_USBV5_SHUTDOWN, IOCTL_USBV5_GETDEVPARAMS, IOCTL_USBV5_ATTACHFINISH,
      IOCTL_USBV5_SUSPEND_RESUME, IOCTL_USBV5_CANCELENDPOINT]) :
    USB_HIDv5.IOCtlV s vrequest = (IOCtlVResult.reply IPC_EINVAL, s) ∧
      USB_HIDv5.IOCtl getDeviceChange shutdown suspendResume s request = (IPC_SUCCESS, s) := by
  constructor
  · unfold USB_HIDv5.IOCtlV
    rw [if_neg (by push_neg; exact hv)]
  · simp only [List.mem_cons, List.not_mem_nil, or_false, not_or] at hd
    obtain ⟨h1, h2, h3, h4, h5, h6, h7⟩ := hd
    unfold USB_HIDv5.IOCtl
    rw [if_neg h1, if_neg h2, if_neg h3, if_neg h4, if_neg h5, if_neg h6, if_neg h7]

/-- C9, witness: vectored identifier 20 against discrete identifier 42. -/
theorem ioctlv_unknown_einval_vs_ioctl_success_witness :
    (sampleUnknownVRequest.request ≠ IOCTLV_USBV5_CTRLMSG ∧
        sampleUnknownVRequest.request ≠ IOCTLV_USBV5_INTRMSG) ∧
      USB_HIDv5.IOCtlV sampleState sampleUnknownVRequest =
        (IOCtlVResult.reply IPC_EINVAL, sampleState) :=
  ⟨by decide,
    (ioctlv_unknown_einval_vs_ioctl_success (fun s1 _ => (IPC_SUCCESS, s1))
      (fun s1 _ => (IPC_SUCCESS, s1)) (fun s1 _ _ => (IPC_SUCCESS, s1)) sampleState
      sampleUnknownVRequest sampleUnknownRequest (by decide) (by decide)).1⟩

/-- C10: a successful GET_DEVICE_PARAMETERS query overwrites only the
endpoint-table fields for interrupt directions actually present on the
matched interface: with no interrupt-OUT endpoint the slot's
interrupt_out_endpoint keeps its prior value, and symmetrically for
interrupt_in_endpoint. -/
theorem getDeviceInfo_endpoint_table_frame (s : HIDState) (didx : Nat)
    (device : USBV5Device) (request : IOCtlRequest) (itf : InterfaceDescriptor)
    (hbo : request.buffer_out ≠ 0) (hbs : request.buffer_out_size = 0x60)
    (hfind : (s.hostDevices device.host_id).interfaces.find? (fun i =>
        i.bInterfaceNumber == device.interface_number &&
          i.bAlternateSetting == readU8 s.mem (request.buffer_in + 8)) = some itf) :
    ((((s.hostDevices device.host_id).endpoints itf.bInterfaceNumber
          itf.bAlternateSetting).filter isIntrOut = []) →
      (((USB_HIDv5.GetDeviceInfo s didx device request).2.additional_device_data.getD didx
          default).interrupt_out_endpoint =
        ((s.additional_device_data.getD didx default).interrupt_out_endpoint))) ∧
      ((((s.hostDevices device.host_id).endpoints itf.bInterfaceNumber
          itf.bAlternateSetting).filter isIntrIn = []) →
        (((USB_HIDv5.GetDeviceInfo s didx device request).2.additional_device_data.getD didx
            default).interrupt_in_endpoint =
          ((s.additional_device_data.getD didx default).interrupt_in_endpoint))) := by
  rw [getDeviceInfo_eq_success s didx device request itf hbo hbs hfind]
  dsimp only
  unfold deviceInfoLoop
  constructor
  · intro hf
    exact foldl_processEndpoint_out_field request.buffer_out didx
      ((s.hostDevices device.host_id).endpoints itf.bInterfaceNumber itf.bAlternateSetting)
      _ hf
  · intro hf
    exact foldl_processEndpoint_in_field request.buffer_out didx
      ((s.hostDevices device.host_id).endpoints itf.bInterfaceNumber itf.bAlternateSetting)
      _ hf

/-- C10, witness: an interface with only an interrupt-IN endpoint retains the
previously resolved interrupt-OUT endpoint 7. -/
theorem getDeviceInfo_endpoint_table_frame_witness :
    ((sampleStateInOnly.hostDevices sampleDevice.host_id).interfaces.find? (fun i =>
        i.bInterfaceNumber == sampleDevice.interface_number &&
          i.bAlternateSetting == readU8 sampleStateInOnly.mem (sampleRequest.buffer_in + 8)) =
      some sampleInterface) ∧
      ((USB_HIDv5.GetDeviceInfo sampleStateInOnly 0 sampleDevice
          sampleRequest).2.additional_device_data.getD 0 default).interrupt_out_endpoint =
        (sampleStateInOnly.additional_device_data.getD 0 default).interrupt_out_endpoint :=
  ⟨by decide,
    (getDeviceInfo_endpoint_table_frame sampleStateInOnly 0 sampleDevice sampleRequest
      sampleInterface (by decide) rfl (by decide)).1 (by decide)⟩

/-- C4, witness: the sample device query succeeds and the layout theorem
applies to it. -/
theorem getDeviceInfo_success_layout_witness :
    sampleRequest.buffer_out ≠ 0 ∧ sampleRequest.buffer_out_size = 0x60 ∧
      ((sampleState.hostDevices sampleDevice.host_id).interfaces.find? (fun i =>
        i.bInterfaceNumber == sampleDevice.interface_number &&
          i.bAlternateSetting == readU8 sampleState.mem (sampleRequest.buffer_in + 8)) =
        some sampleInterface) ∧
      (USB_HIDv5.GetDeviceInfo sampleState 0 sampleDevice sampleRequest).1 = IPC_SUCCESS :=
  ⟨by decide, rfl, by decide,
    (getDeviceInfo_success_layout sampleState 0 sampleDevice sampleRequest sampleInterface
      (by decide) rfl (by decide) (by decide)).1⟩

/-- C3: on the sample device exposing interrupt-IN endpoint 0x81 and
interrupt-OUT endpoint 0x02, the parameter query succeeds, and afterwards
every interrupt-message transfer whose 4-byte direction selector at offset 8
of the first input vector is zero is routed to endpoint 0x81, while every
one with a non-zero selector is routed to endpoint 0x02. -/
theorem intr_transfer_endpoint_routing :
    (USB_HIDv5.GetDeviceInfo sampleState 0 sampleDevice sampleRequest).1 = IPC_SUCCESS ∧
      ∀ (m2 : Mem) (req : IOCtlVRequest) (vin vout : IOVector),
        req.request = IOCTLV_USBV5_INTRMSG →
        req.in_vectors = [vin] → req.io_vectors = [vout] →
        readU32 m2 vin.address = 1 →
        (readU32 m2 (vin.address + 8) = 0 →
          USB_HIDv5.IOCtlV
            { (USB_HIDv5.GetDeviceInfo sampleState 0 sampleDevice sampleRequest).2 with
                mem := m2 } req =
            (IOCtlVResult.transfer (TransferMessage.intr 0x81),
              { (USB_HIDv5.GetDeviceInfo sampleState 0 sampleDevice sampleRequest).2 with
                  mem := m2 })) ∧
          (readU32 m2 (vin.address + 8) ≠ 0 →
            USB_HIDv5.IOCtlV
              { (USB_HIDv5.GetDeviceInfo sampleState 0 sampleDevice sampleRequest).2 with
                  mem := m2 } req =
              (IOCtlVResult.transfer (TransferMessage.intr 2),
                { (USB_HIDv5.GetDeviceInfo sampleState 0 sampleDevice sampleRequest).2 with
                    mem := m2 })) := by
  refine ⟨by decide, ?_⟩
  intro m2 req vin vout hreq hin hio hid
  set s2 : HIDState :=
    { (USB_HIDv5.GetDeviceInfo sampleState 0 sampleDevice sampleRequest).2 with
        mem := m2 } with hs2
  have hmem : s2.mem = m2 := rfl
  have hdevs2 : s2.usbv5_devices = [some sampleDevice] := by
    show (USB_HIDv5.GetDeviceInfo sampleState 0 sampleDevice
      sampleRequest).2.usbv5_devices = [some sampleDevice]
    decide
  have hdata2 : s2.additional_device_data =
      [{ interrupt_in_endpoint := 0x81, interrupt_out_endpoint := 2 }] := by
    show (USB_HIDv5.GetDeviceInfo sampleState 0 sampleDevice
      sampleRequest).2.additional_device_data =
      [{ interrupt_in_endpoint := 0x81, interrupt_out_endpoint := 2 }]
    decide
  have hres : getUSBV5Device s2 vin.address = some (0, sampleDevice) := by
    unfold getUSBV5Device
    rw [hmem, hdevs2, hid]
    simp only [findDevice]
    rw [if_pos (by decide)]
  have hsub : ∀ sel, readU32 m2 (vin.address + 8) = sel →
      USB_HIDv5.SubmitTransfer s2 0 req =
        some (TransferMessage.intr (if sel ≠ 0 then 2 else 0x81)) := by
    intro sel hsel
    unfold USB_HIDv5.SubmitTransfer
    rw [if_neg (by rw [hreq]; decide), if_pos hreq]
    rw [hdata2]
    simp only [List.getD_cons_zero]
    rw [hin]
    simp only [List.headD_cons]
    simp only [hsel]
    by_cases h0 : sel ≠ 0
    · rw [if_pos h0, if_pos h0]
    · rw [if_neg h0, if_neg h0]
  have hmain : ∀ sel, readU32 m2 (vin.address + 8) = sel →
      USB_HIDv5.IOCtlV s2 req =
        (IOCtlVResult.transfer (TransferMessage.intr (if sel ≠ 0 then 2 else 0x81)), s2) := by
    intro sel hsel
    have hvec : ¬(req.in_vectors.length + req.io_vectors.length ≠ 2) := by
      rw [hin, hio]
      simp
    unfold USB_HIDv5.IOCtlV
    rw [if_pos (Or.inr hreq)]
    rw [if_neg hvec]
    rw [hin]
    simp only [List.headD_cons]
    rw [hres]
    dsimp only
    rw [hsub sel hsel]
  constructor
  · intro hsel
    have := hmain 0 hsel
    simpa using this
  · intro hsel
    have := hmain (readU32 m2 (vin.address + 8)) rfl
    rw [if_pos hsel] at this
    exact this

/-- C3, witness: the zero direction selector at offset 8 routes the sample
interrupt request to endpoint 0x81. -/
theorem intr_transfer_endpoint_routing_witness :
    readU32 sampleIntrMem (0x3000 + 8) = 0 ∧
      USB_HIDv5.IOCtlV
        { (USB_HIDv5.GetDeviceInfo sampleState 0 sampleDevice sampleRequest).2 with
            mem := sampleIntrMem } sampleIntrRequest =
        (IOCtlVResult.transfer (TransferMessage.intr 0x81),
          { (USB_HIDv5.GetDeviceInfo sampleState 0 sampleDevice sampleRequest).2 with
              mem := sampleIntrMem }) :=
  ⟨by decide,
    (intr_transfer_endpoint_routing.2 sampleIntrMem sampleIntrRequest
      { address := 0x3000, size := 16 } { address := 0x4000, size := 64 } rfl rfl rfl
      (by decide)).1 (by decide)⟩
